import Mathlib

/-!
Verification of the BMI calculator (`src/bmi_calculator.py`).

The Python functions of class `BMICalculator` are embedded as Lean
functions over exact rationals (`ℚ`):

* a raw user entry is an `Option ℚ`: `none` models a string that
  `float()` fails to parse (Python raises `ValueError`), `some q` a
  numeric entry with value `q`;
* `round2` models Python's `round(x, 2)` (round half to even);
* the SQLite table `bmi_records` is a list of `BMIRecord`s in insertion
  order; a database state is an `Option (List BMIRecord)` where `none`
  models a connection on which every operation raises `sqlite3.Error`;
* `ORDER BY timestamp DESC` is modelled by sorting with a stable
  insertion sort under the relation "later or equal timestamp first"
  (timestamps are `TEXT`, compared as strings, as SQLite does).
-/

/-- Round half to even on an exact rational, as Python's `round` does on
the value it is given. -/
def roundHalfToEven (q : ℚ) : ℤ :=
  let n := Int.floor q
  let frac := q - n
  if frac < 1/2 then n
  else if 1/2 < frac then n + 1
  else if n % 2 = 0 then n else n + 1

/-- Python's `round(x, 2)`: round to two decimal places. -/
def round2 (q : ℚ) : ℚ := (roundHalfToEven (q * 100) : ℚ) / 100

/-- `BMICalculator.calculate_bmi` (lines 17-23):
`float(weight) / (float(height) ** 2)` rounded to 2 decimals; `None` on
`ValueError` (non-numeric entry) or `ZeroDivisionError` (height 0). -/
def calculate_bmi (weight height : Option ℚ) : Option ℚ :=
  match weight, height with
  | some w, some h => if h = 0 then none else some (round2 (w / h ^ 2))
  | _, _ => none

/-- `BMICalculator.classify_bmi` (lines 25-34). -/
def classify_bmi (bmi : ℚ) : String :=
  if bmi < 37/2 then "Underweight"
  else if 37/2 ≤ bmi ∧ bmi < 25 then "Normal weight"
  else if 25 ≤ bmi ∧ bmi < 30 then "Overweight"
  else "Obese"

/-- `BMICalculator.validate_input` (lines 36-54). -/
def validate_input (weight height : Option ℚ) : Bool × String :=
  match weight, height with
  | some w, some h =>
    if w ≤ 0 ∨ h ≤ 0 then (false, "Weight and height must be positive numbers")
    else if 300 < w then (false, "Weight seems too high. Please check your input.")
    else if 5/2 < h then (false, "Height seems too high. Please check your input.")
    else (true, "Valid input")
  | _, _ => (false, "Please enter valid numbers for weight and height")

/-- A row of the SQLite table `bmi_records` (the `id` column is the
position in the list). -/
structure BMIRecord where
  username : String
  weight : ℚ
  height : ℚ
  bmi : ℚ
  category : String
  timestamp : String
deriving DecidableEq, Repr

/-- The 5-tuple `(timestamp, weight, height, bmi, category)` that
`get_user_history` SELECTs from a row. -/
def rowOf (r : BMIRecord) : String × ℚ × ℚ × ℚ × String :=
  (r.timestamp, r.weight, r.height, r.bmi, r.category)

/-- `ORDER BY timestamp DESC`: record `a` may come before `b` when `b`'s
timestamp is at most `a`'s. -/
def tsDesc (a b : BMIRecord) : Prop := b.timestamp ≤ a.timestamp

instance instTsDescDecidable : DecidableRel tsDesc :=
  fun a b => inferInstanceAs (Decidable (b.timestamp ≤ a.timestamp))

instance instTsDescTotal : IsTotal BMIRecord tsDesc :=
  ⟨fun a b => le_total b.timestamp a.timestamp⟩

instance instTsDescTrans : IsTrans BMIRecord tsDesc :=
  ⟨fun _ _ _ hab hbc => le_trans hbc hab⟩

/-- `BMICalculator.save_to_database` (lines 77-94): INSERT a new row;
returns the new database state and the Boolean success flag (`false`
and an unchanged state when `sqlite3.Error` is raised). The timestamp
is `datetime.now()` in the source, passed here as an argument. -/
def save_to_database (db : Option (List BMIRecord)) (username : String)
    (weight height bmi : ℚ) (category timestamp : String) :
    Option (List BMIRecord) × Bool :=
  match db with
  | some records =>
      (some (records ++ [⟨username, weight, height, bmi, category, timestamp⟩]), true)
  | none => (none, false)

/-- `BMICalculator.get_user_history` (lines 96-114): SELECT the rows
WHERE `username` matches, ORDER BY timestamp DESC; `[]` when
`sqlite3.Error` is raised. -/
def get_user_history (db : Option (List BMIRecord)) (username : String) :
    List (String × ℚ × ℚ × ℚ × String) :=
  match db with
  | some records =>
      (List.insertionSort tsDesc (records.filter (fun r => r.username == username))).map rowOf
  | none => []

/-- `BMICalculator.get_all_users` (lines 116-128): SELECT DISTINCT
username; `[]` when `sqlite3.Error` is raised. -/
def get_all_users (db : Option (List BMIRecord)) : List String :=
  match db with
  | some records => (records.map (fun r => r.username)).dedup
  | none => []

/-- The core of `BMICalculatorGUI.calculate_bmi_gui` (lines 282-307):
validate, compute the BMI, classify it and save the record. Returns the
new database state and whether a record was saved. -/
def calculate_bmi_gui (db : Option (List BMIRecord)) (username : String)
    (weight height : Option ℚ) (timestamp : String) :
    Option (List BMIRecord) × Bool :=
  if username = "" then (db, false)
  else
    match weight, height with
    | some w, some h =>
        if (validate_input (some w) (some h)).1 then
          match calculate_bmi (some w) (some h) with
          | some bmi =>
              save_to_database db username w h bmi (classify_bmi bmi) timestamp
          | none => (db, false)
        else (db, false)
    | _, _ => (db, false)

/-- Unfolding of a successful validation: numeric input within bounds. -/
lemma validate_input_ok (w h : ℚ) (hv : (validate_input (some w) (some h)).1 = true) :
    0 < w ∧ w ≤ 300 ∧ 0 < h ∧ h ≤ 5/2 := by
  simp only [validate_input] at hv
  split_ifs at hv with h1 h2 h3
  push_neg at h1
  exact ⟨h1.1, le_of_not_lt h2, h1.2, le_of_not_lt h3⟩

/-- C1: `classify_bmi` returns the category determined by the fixed
thresholds — Underweight below 18.5, Normal weight on [18.5, 25),
Overweight on [25, 30), Obese at or above 30 — and its result is always
one of those four category names. -/
theorem classify_bmi_thresholds (bmi : ℚ) :
    (classify_bmi bmi = "Underweight" ↔ bmi < 37/2) ∧
    (classify_bmi bmi = "Normal weight" ↔ 37/2 ≤ bmi ∧ bmi < 25) ∧
    (classify_bmi bmi = "Overweight" ↔ 25 ≤ bmi ∧ bmi < 30) ∧
    (classify_bmi bmi = "Obese" ↔ 30 ≤ bmi) ∧
    classify_bmi bmi ∈ ["Underweight", "Normal weight", "Overweight", "Obese"] := by
  unfold classify_bmi
  split_ifs with h1 h2 h3
  · exact ⟨iff_of_true rfl h1,
      iff_of_false (by decide) (fun hc => absurd hc.1 (not_le.mpr h1)),
      iff_of_false (by decide) (fun hc => by linarith [hc.1]),
      iff_of_false (by decide) (fun hc => by linarith),
      by simp⟩
  · exact ⟨iff_of_false (by decide) h1,
      iff_of_true rfl h2,
      iff_of_false (by decide) (fun hc => by linarith [h2.2, hc.1]),
      iff_of_false (by decide) (fun hc => by linarith [h2.2]),
      by simp⟩
  · exact ⟨iff_of_false (by decide) h1,
      iff_of_false (by decide) h2,
      iff_of_true rfl h3,
      iff_of_false (by decide) (fun hc => by linarith [h3.2]),
      by simp⟩
  · have hb : 30 ≤ bmi := by
      by_contra hb
      push_neg at hb
      have h25 : 25 ≤ bmi := by
        by_contra hb2
        push_neg at hb2
        exact h2 ⟨not_lt.mp h1, hb2⟩
      exact h3 ⟨h25, hb⟩
    exact ⟨iff_of_false (by decide) h1,
      iff_of_false (by decide) h2,
      iff_of_false (by decide) h3,
      iff_of_true rfl hb,
      by simp⟩

/-- C3: on numeric input, `validate_input` accepts exactly the pairs with
`0 < weight ≤ 300` and `0 < height ≤ 2.5`; a zero weight or zero height is
rejected with the positivity error message. -/
theorem validate_input_ok_iff (w h : ℚ) :
    ((validate_input (some w) (some h)).1 = true ↔
      0 < w ∧ w ≤ 300 ∧ 0 < h ∧ h ≤ 5/2) ∧
    (validate_input (some 0) (some h)).1 = false ∧
    (validate_input (some w) (some 0)).1 = false ∧
    (validate_input (some 0) (some h)).2 = "Weight and height must be positive numbers" ∧
    (validate_input (some w) (some 0)).2 = "Weight and height must be positive numbers" := by
  refine ⟨⟨validate_input_ok w h, ?_⟩, ?_, ?_, ?_, ?_⟩
  · rintro ⟨hw, hw300, hh, hh25⟩
    simp only [validate_input]
    split_ifs with h1 h2 h3
    · rcases h1 with h1 | h1 <;> linarith
    · linarith
    · linarith
    · rfl
  all_goals simp [validate_input]

/-- C4: for weight 70 kg and height 1.75 m the computed BMI is 22.86 and
its category is "Normal weight"; for weight 50 kg and height 1.8 m the
computed BMI is 15.43 and its category is "Underweight". -/
theorem concrete_bmi_examples :
    calculate_bmi (some 70) (some 1.75) = some 22.86 ∧
    classify_bmi 22.86 = "Normal weight" ∧
    calculate_bmi (some 50) (some 1.8) = some 15.43 ∧
    classify_bmi 15.43 = "Underweight" := by
  refine ⟨?_, ?_, ?_, ?_⟩
  · simp only [calculate_bmi, round2, roundHalfToEven]; norm_num
  · simp only [classify_bmi]; norm_num
  · simp only [calculate_bmi, round2, roundHalfToEven]; norm_num
  · simp only [classify_bmi]; norm_num

/-- C9: whenever `validate_input` accepts the input, `calculate_bmi`
does not return the error value `none`: its exception branch is
unreachable under the validation precondition. -/
theorem validate_ok_calculate_some (weight height : Option ℚ)
    (hv : (validate_input weight height).1 = true) :
    (calculate_bmi weight height).isSome := by
  match weight, height with
  | some w, some h =>
    have hpos := validate_input_ok w h hv
    simp [calculate_bmi, ne_of_gt hpos.2.2.1]
  | none, _ => simp [validate_input] at hv
  | some _, none => simp [validate_input] at hv

/-- Witness for C9 at weight 70, height 1.75. -/
theorem validate_ok_calculate_some_witness :
    (calculate_bmi (some 70) (some (7/4))).isSome :=
  validate_ok_calculate_some (some 70) (some (7/4)) (by norm_num [validate_input])

/-- C10: when the database raises an error, `get_user_history` and
`get_all_users` both return the empty list. -/
theorem db_error_empty_results (username : String) :
    get_user_history none username = [] ∧ get_all_users none = [] :=
  ⟨rfl, rfl⟩

/-- C6: `get_user_history` returns exactly the stored rows whose username
matches (as a permutation of the filtered table), ordered with the most
recent timestamp first (pairwise descending). -/
theorem get_user_history_exact_and_ordered (records : List BMIRecord) (u : String) :
    List.Perm (get_user_history (some records) u)
      ((records.filter (fun r => r.username == u)).map rowOf) ∧
    List.Pairwise (fun a b => b.1 ≤ a.1) (get_user_history (some records) u) := by
  constructor
  · exact (List.perm_insertionSort tsDesc _).map rowOf
  · have hs := List.sorted_insertionSort tsDesc (records.filter (fun r => r.username == u))
    simp only [get_user_history]
    rw [List.pairwise_map]
    exact hs

/-- C5: after appending a record for a user, reading that user's history
returns a row with exactly the values that were written (the history is
queried at, and filtered on, the record's own username). -/
theorem save_then_history_round_trip (records : List BMIRecord) (r : BMIRecord) :
    rowOf r ∈ get_user_history
      (save_to_database (some records) r.username r.weight r.height r.bmi
        r.category r.timestamp).1
      r.username := by
  simp only [save_to_database, get_user_history]
  refine List.mem_map_of_mem rowOf ?_
  rw [(List.perm_insertionSort tsDesc _).mem_iff, List.mem_filter]
  simp

/-- C8: the store is append-only — `save_to_database` succeeds by adding
one record at the end and leaves every previously stored record in place;
the reading operations return values without producing a new store state. -/
theorem save_to_database_append_only (records : List BMIRecord) (u : String)
    (w h b : ℚ) (c t : String) :
    ∃ newRecords, save_to_database (some records) u w h b c t = (some newRecords, true) ∧
      newRecords.take records.length = records ∧
      newRecords.length = records.length + 1 := by
  refine ⟨records ++ [⟨u, w, h, b, c, t⟩], ?_, ?_, ?_⟩
  · rfl
  · simp
  · simp

/-- The counterexample to C2 as stated: running a successful calculation
for weight 70 and height 1.75 stores the record with bmi 22.86, yet
22.86 differs from the exact quotient 70 / 1.75². -/
theorem stored_bmi_not_exact_quotient :
    (calculate_bmi_gui (some []) "alice" (some 70) (some 1.75) "2024-01-01 00:00:00").1 =
      some [⟨"alice", 70, 1.75, 22.86, "Normal weight", "2024-01-01 00:00:00"⟩] ∧
    ¬ ((22.86 : ℚ) = 70 / (1.75 : ℚ) ^ 2) := by
  constructor
  · simp only [calculate_bmi_gui, calculate_bmi, validate_input, save_to_database,
      classify_bmi, round2, roundHalfToEven]
    norm_num
    simp
  · norm_num

/-- C2 (amended): every record created by a successful calculation has
positive weight, positive height, and a stored bmi equal to
weight / height² rounded to two decimal places. -/
theorem created_record_invariant (records : List BMIRecord) (username : String)
    (w h : ℚ) (ts : String) (newRecords : List BMIRecord)
    (hrun : (calculate_bmi_gui (some records) username (some w) (some h) ts).1 =
      some newRecords)
    (r : BMIRecord) (hmem : r ∈ newRecords) (hnew : r ∉ records) :
    0 < r.weight ∧ 0 < r.height ∧ r.bmi = round2 (r.weight / r.height ^ 2) := by
  unfold calculate_bmi_gui at hrun
  by_cases hu : username = ""
  · rw [if_pos hu] at hrun
    obtain rfl : records = newRecords := Option.some_injective _ hrun
    exact absurd hmem hnew
  · rw [if_neg hu] at hrun
    by_cases hv : (validate_input (some w) (some h)).1 = true
    · have hpos := validate_input_ok w h hv
      have hcb : calculate_bmi (some w) (some h) = some (round2 (w / h ^ 2)) := by
        simp [calculate_bmi, ne_of_gt hpos.2.2.1]
      simp only [hv, if_true, hcb, save_to_database, Option.some.injEq] at hrun
      subst hrun
      rcases List.mem_append.mp hmem with hin | hin
      · exact absurd hin hnew
      · obtain rfl := List.mem_singleton.mp hin
        exact ⟨hpos.1, hpos.2.2.1, rfl⟩
    · simp only [Bool.not_eq_true] at hv
      simp only [hv, Bool.false_eq_true, if_false, Option.some.injEq] at hrun
      subst hrun
      exact absurd hmem hnew

/-- Witness for the amended C2 at a concrete run: weight 70, height 1.75,
record list initially empty. -/
theorem created_record_invariant_witness :
    0 < (⟨"alice", 70, 7/4, 1143/50, "Normal weight", "t"⟩ : BMIRecord).weight ∧
    0 < (⟨"alice", 70, 7/4, 1143/50, "Normal weight", "t"⟩ : BMIRecord).height ∧
    (⟨"alice", 70, 7/4, 1143/50, "Normal weight", "t"⟩ : BMIRecord).bmi =
      round2 ((⟨"alice", 70, 7/4, 1143/50, "Normal weight", "t"⟩ : BMIRecord).weight /
        (⟨"alice", 70, 7/4, 1143/50, "Normal weight", "t"⟩ : BMIRecord).height ^ 2) :=
  created_record_invariant [] "alice" 70 (7/4) "t"
    [⟨"alice", 70, 7/4, 1143/50, "Normal weight", "t"⟩]
    (by simp only [calculate_bmi_gui, calculate_bmi, validate_input, save_to_database,
          classify_bmi, round2, roundHalfToEven]
        norm_num
        simp)
    ⟨"alice", 70, 7/4, 1143/50, "Normal weight", "t"⟩
    (by simp) (by simp)

/-- The counterexample to C7 as stated: weight 0 with height 1 is rejected
by validation, yet `calculate_bmi` still returns a BMI value (0.0), not an
error. -/
theorem rejected_input_still_computes :
    (validate_input (some 0) (some 1)).1 = false ∧
    calculate_bmi (some 0) (some 1) = some 0 := by
  constructor
  · norm_num [validate_input]
  · simp only [calculate_bmi, round2, roundHalfToEven]
    norm_num

/-- C7 (amended): `calculate_bmi` returns the error value exactly when an
entry is non-numeric or the height is zero; every input accepted by
validation yields a BMI value, but inputs rejected by validation for
other reasons (non-positive weight, out-of-bounds values) still yield a
BMI value rather than an error. -/
theorem calculate_bmi_none_iff (weight height : Option ℚ) :
    (calculate_bmi weight height = none ↔
      weight = none ∨ height = none ∨ height = some 0) ∧
    ((validate_input weight height).1 = false ∨ (calculate_bmi weight height).isSome) := by
  match weight, height with
  | some w, some h =>
    constructor
    · simp only [calculate_bmi]
      split_ifs with h0
      · simp [h0]
      · simp [h0]
    · by_cases h0 : h = 0
      · left
        simp only [validate_input]
        split_ifs with h1 h2 h3
        · rfl
        · rfl
        · rfl
        · exact absurd (Or.inr (le_of_eq h0)) h1
      · right
        simp [calculate_bmi, h0]
  | none, _ => simp [calculate_bmi, validate_input]
  | some _, none => simp [calculate_bmi, validate_input]
